import Mathlib

/-!
Verification of the Smart Dispatcher core of the logistima-server repository:
a shallow embedding of `DriverService` (reserve/release/nearby/assign),
`RedisService.acquireLock/releaseLock`, and the delivery status controller,
with theorems settling the specification claims.

Numbers that the TypeScript source stores in JS `number` fields are modelled
as `Int` (loads, capacities, timestamps) or `Rat` (coordinates, distances,
scores); JS exceptions are modelled with `Except String`.
-/

namespace Logistima

/-- Driver status enum (`DriverStatus` in Driver.model: available/busy/offline). -/
inductive DriverStatus where
  | available
  | busy
  | offline
deriving DecidableEq, Repr

/-- Delivery status enum (`DeliveryStatus` in Delivery.model: started/completed/cancelled). -/
inductive DeliveryStatus where
  | started
  | completed
  | cancelled
deriving DecidableEq, Repr

/-- The string value of a delivery status, as in the TS enum. -/
def DeliveryStatus.str : DeliveryStatus → String
  | .started => "started"
  | .completed => "completed"
  | .cancelled => "cancelled"

/-- A geographic position (`DriverLocation` interface: lat/lng). -/
structure GeoLoc where
  lat : Rat
  lng : Rat
deriving DecidableEq, Repr

/-- A durable Driver row, with the fields `DriverService` reads
(`id`, `maxCapacity`, `currentLoad`, `status`, `rating`, `experienceLevel`,
`location`, `updatedAt`). -/
structure Driver where
  id : String
  maxCapacity : Int
  currentLoad : Int
  status : DriverStatus
  rating : Option Rat
  experienceLevel : String
  location : Option GeoLoc
  updatedAt : Int
deriving DecidableEq, Repr

/-- A durable Delivery row, with the fields the delivery controller touches. -/
structure Delivery where
  id : String
  parcelId : String
  driverId : String
  status : DeliveryStatus
  receiptGenerated : Bool
deriving DecidableEq, Repr

/-! ## Redis model (`RedisService`)

The fast shared store is a list of `(key, value)` pairs plus an `up` flag;
when `up = false` every command against the store throws, which each
`RedisService` method catches as written in the source. -/

/-- The fast shared store: held keys with their values, and reachability. -/
structure RedisStore where
  keys : List (String × Int)
  up : Bool
deriving DecidableEq, Repr

/-- Value currently stored under a key, `none` if absent. -/
def RedisStore.lookup (r : RedisStore) (k : String) : Option Int :=
  (r.keys.find? (fun p => p.1 = k)).map (·.2)

/-- `RedisService.acquireLock(key, ttl)`: one `SET lockKey lockValue NX PX ttl`
command where `lockKey = "lock:" + key` and `lockValue = Date.now() + ttl + 1`;
returns `result === 'OK'`; a thrown store error is caught and `false` is
returned. -/
def acquireLock (r : RedisStore) (key : String) (now ttl : Int) :
    Bool × RedisStore :=
  let lockKey := "lock:" ++ key
  let lockValue := now + ttl + 1
  if ¬ r.up then
    (false, r)
  else if (r.lookup lockKey).isSome then
    (false, r)
  else
    (true, { r with keys := (lockKey, lockValue) :: r.keys })

/-- `RedisService.releaseLock(key)`: `DEL "lock:" + key`; a thrown store
error is caught and swallowed. -/
def releaseLock (r : RedisStore) (key : String) : RedisStore :=
  let lockKey := "lock:" ++ key
  if ¬ r.up then r
  else { r with keys := r.keys.filter (fun p => ¬ p.1 = lockKey) }

/-! ## Lock keys computed by the Reservation Engine -/

/-- The lock key `reserveDriver` computes: `driver:reserve:${driverId}`. -/
def reserveLockKey (driverId : String) : String :=
  "driver:reserve:" ++ driverId

/-- The lock key `releaseDriver` computes: `driver:release:${driverId}`. -/
def releaseLockKey (driverId : String) : String :=
  "driver:release:" ++ driverId

end Logistima

open Logistima

/-- helper: the two lock-key prefixes differ, so appends of them differ. -/
theorem Logistima.reserveLockKey_ne_releaseLockKey (driverId : String) :
    reserveLockKey driverId ≠ releaseLockKey driverId := by
  intro h
  have hdata : ("driver:reserve:" ++ driverId).data
      = ("driver:release:" ++ driverId).data := congrArg String.data h
  have hlist : "driver:reserve:".data ++ driverId.data
      = "driver:release:".data ++ driverId.data := hdata
  have hlen : "driver:reserve:".data.length = "driver:release:".data.length := by
    decide
  have := (List.append_inj hlist hlen).1
  have : "driver:reserve:" = "driver:release:" := congrArg String.mk this
  simp at this

/-- C1: the claim that `reserve(driverId)` and `release(driverId)` acquire the
reservation lock under the same key is FALSE: at `driverId = "d1"`,
`reserveDriver` computes `driver:reserve:d1` while `releaseDriver` computes
`driver:release:d1`, two distinct keys. -/
theorem c1_lock_keys_counterexample :
    reserveLockKey "d1" = "driver:reserve:d1"
      ∧ releaseLockKey "d1" = "driver:release:d1"
      ∧ reserveLockKey "d1" ≠ releaseLockKey "d1" := by
  refine ⟨rfl, rfl, ?_⟩
  decide

/-- C1 (amended): for every driverId, `reserveDriver` locks
`driver:reserve:<driverId>` while `releaseDriver` locks
`driver:release:<driverId>`; the two keys are always distinct, so reserve and
release of the same driver are not serialized by a common lock. -/
theorem c1_reserve_release_lock_keys_distinct (driverId : String) :
    reserveLockKey driverId = "driver:reserve:" ++ driverId
      ∧ releaseLockKey driverId = "driver:release:" ++ driverId
      ∧ reserveLockKey driverId ≠ releaseLockKey driverId :=
  ⟨rfl, rfl, reserveLockKey_ne_releaseLockKey driverId⟩

/-- C6: `acquireLock` is a single set-if-absent-with-expiry command: when the
store is unreachable the thrown error is caught and `false` is returned with
the store untouched (fail closed); when the store is reachable it returns
`true` iff the lock key was absent, in which case the single command has
stored `now + ttl + 1` under `lock:<key>`, and on `false` the store is
untouched. -/
theorem c6_acquireLock_atomic_fail_closed (r : RedisStore) (key : String)
    (now ttl : Int) :
    (¬ r.up → acquireLock r key now ttl = (false, r))
      ∧ (r.up →
          ((acquireLock r key now ttl).1 = true
              ↔ r.lookup ("lock:" ++ key) = none)
          ∧ ((acquireLock r key now ttl).1 = true →
              (acquireLock r key now ttl).2.keys
                = ("lock:" ++ key, now + ttl + 1) :: r.keys)
          ∧ ((acquireLock r key now ttl).1 = false →
              (acquireLock r key now ttl).2 = r)) := by
  constructor
  · intro hdown
    simp [acquireLock, hdown]
  · intro hup
    by_cases habs : (r.lookup ("lock:" ++ key)).isSome
    · have hne : r.lookup ("lock:" ++ key) ≠ none :=
        Option.isSome_iff_ne_none.mp habs
      refine ⟨?_, ?_, ?_⟩ <;> simp [acquireLock, hup, habs, hne]
    · refine ⟨?_, ?_, ?_⟩ <;>
        simp [acquireLock, hup, habs, Option.not_isSome_iff_eq_none.mp habs]

/-- C6 witness: on an unreachable store acquisition fails closed, and on a
reachable empty store acquisition of key `k` succeeds. -/
theorem c6_acquireLock_atomic_fail_closed_witness :
    acquireLock ⟨[], false⟩ "k" 0 5000 = (false, ⟨[], false⟩)
      ∧ (acquireLock ⟨[], true⟩ "k" 0 5000).1 = true := by
  constructor
  · exact (c6_acquireLock_atomic_fail_closed ⟨[], false⟩ "k" 0 5000).1
      (by decide)
  · exact ((c6_acquireLock_atomic_fail_closed ⟨[], true⟩ "k" 0 5000).2
      (by decide)).1.mpr (by decide)

namespace Logistima

/-! ## Worlds and the Driver Reservation Engine (`DriverService`)

`reserveDriver`/`releaseDriver` run a durable transaction under a distributed
lock. Exceptions thrown inside the locked section (`Driver not found`,
a failing `driver.update`, a failing `transaction.commit`) are modelled by
fault flags; the `catch` block rolls the transaction back (durable rows only
change on the commit-success path) and rethrows, and the `finally` block
releases the lock on every exit. The cache refresh (`setWithExpiry`) and
nearby-cache invalidation (`delPattern`) catch their own store errors and
never touch lock keys, so they are not tracked. -/

/-- Fault injection for a reserve/release run: whether the in-transaction
`driver.update` throws, and whether `transaction.commit` throws. -/
structure Faults where
  updateFails : Bool
  commitFails : Bool
deriving DecidableEq, Repr

/-- A run with no infrastructure faults. -/
def Faults.ok : Faults := ⟨false, false⟩

/-- The shared state: durable driver rows, durable delivery rows, the fast
store, and the current clock. -/
structure World where
  drivers : List Driver
  deliveries : List Delivery
  redis : RedisStore
  now : Int
deriving DecidableEq, Repr

/-- `Driver.findByPk(driverId)`: the row with that primary key. -/
def findDriver (l : List Driver) (driverId : String) : Option Driver :=
  l.find? (fun d => d.id = driverId)

/-- Committing an update of one driver row: the row with the updated
driver's id is replaced. -/
def updateDriverRow (l : List Driver) (d' : Driver) : List Driver :=
  l.map (fun d => if d.id = d'.id then d' else d)

/-- `DriverService.reserveDriver(driverId)`: acquire the lock
`driver:reserve:<id>` (5s TTL, return false on contention); in a transaction,
row-lock read the driver (404 if absent), return false on full capacity or
non-available status, else increment `currentLoad` and set status to busy
when the new load reaches capacity; commit; any exception rolls back and
rethrows; the lock is always released. -/
def reserveDriver (w : World) (driverId : String) (f : Faults) :
    Except String Bool × World :=
  let lockKey := reserveLockKey driverId
  let acq := acquireLock w.redis lockKey w.now 5000
  if ¬ acq.1 then
    (.ok false, { w with redis := acq.2 })
  else
    let w1 : World := { w with redis := acq.2 }
    match findDriver w1.drivers driverId with
    | none =>
        (.error ("Driver " ++ driverId ++ " not found"),
          { w1 with redis := releaseLock w1.redis lockKey })
    | some driver =>
        if driver.currentLoad ≥ driver.maxCapacity then
          (.ok false, { w1 with redis := releaseLock w1.redis lockKey })
        else if ¬ driver.status = .available then
          (.ok false, { w1 with redis := releaseLock w1.redis lockKey })
        else if f.updateFails then
          (.error "driver update failed",
            { w1 with redis := releaseLock w1.redis lockKey })
        else
          let newLoad := driver.currentLoad + 1
          let driver' := { driver with
            currentLoad := newLoad,
            status := if newLoad ≥ driver.maxCapacity then
                DriverStatus.busy
              else DriverStatus.available }
          if f.commitFails then
            (.error "commit failed",
              { w1 with redis := releaseLock w1.redis lockKey })
          else
            (.ok true,
              { w1 with
                drivers := updateDriverRow w1.drivers driver',
                redis := releaseLock w1.redis lockKey })

/-- `DriverService.releaseDriver(driverId)`: acquire the lock
`driver:release:<id>`; in a transaction, row-lock read the driver (404 if
absent), return false when `currentLoad <= 0`, else decrement the load and
set `status` to `newLoad > 0 ? 'available' : driver.status`; commit; any
exception rolls back and rethrows; the lock is always released. -/
def releaseDriver (w : World) (driverId : String) (f : Faults) :
    Except String Bool × World :=
  let lockKey := releaseLockKey driverId
  let acq := acquireLock w.redis lockKey w.now 5000
  if ¬ acq.1 then
    (.ok false, { w with redis := acq.2 })
  else
    let w1 : World := { w with redis := acq.2 }
    match findDriver w1.drivers driverId with
    | none =>
        (.error ("Driver " ++ driverId ++ " not found"),
          { w1 with redis := releaseLock w1.redis lockKey })
    | some driver =>
        if driver.currentLoad ≤ 0 then
          (.ok false, { w1 with redis := releaseLock w1.redis lockKey })
        else if f.updateFails then
          (.error "driver update failed",
            { w1 with redis := releaseLock w1.redis lockKey })
        else
          let newLoad := driver.currentLoad - 1
          let driver' := { driver with
            currentLoad := newLoad,
            status := if newLoad > 0 then
                DriverStatus.available
              else driver.status }
          if f.commitFails then
            (.error "commit failed",
              { w1 with redis := releaseLock w1.redis lockKey })
          else
            (.ok true,
              { w1 with
                drivers := updateDriverRow w1.drivers driver',
                redis := releaseLock w1.redis lockKey })

end Logistima

namespace Logistima

/-- Replacing the row found under a key is found back under that key. -/
theorem findDriver_updateDriverRow (l : List Driver) (driverId : String)
    (d d' : Driver) (hfind : findDriver l driverId = some d)
    (hid : d'.id = d.id) :
    findDriver (updateDriverRow l d') driverId = some d' := by
  induction l with
  | nil => simp [findDriver] at hfind
  | cons x xs ih =>
    by_cases hx : x.id = driverId
    · have hxd : x = d := by
        simpa [findDriver, List.find?_cons_of_pos, hx] using hfind
      have hcond : x.id = d'.id := by rw [hid, hxd]
      have hd'id : d'.id = driverId := by rw [hid, ← hxd, hx]
      simp [findDriver, updateDriverRow, hcond, List.find?_cons_of_pos, hd'id]
    · have hne : ¬ x.id = d'.id := by
        rw [hid]
        intro hcontra
        exact hx (by
          have : d.id = driverId := by
            have := List.find?_some hfind
            simpa using this
          rw [hcontra, this])
      have hrec : findDriver xs driverId = some d := by
        simpa [findDriver, List.find?_cons_of_neg, hx] using hfind
      have := ih hrec
      simpa [findDriver, updateDriverRow, hne, List.find?_cons_of_neg, hx]
        using this

/-- The key found under `findDriver` is the queried id. -/
theorem findDriver_id (l : List Driver) (driverId : String) (d : Driver)
    (hfind : findDriver l driverId = some d) : d.id = driverId := by
  have := List.find?_some hfind
  simpa using this

/-- Equality of `Except` values is decidable when it is on both sides. -/
instance {ε α : Type} [DecidableEq ε] [DecidableEq α] :
    DecidableEq (Except ε α) := fun a b =>
  match a, b with
  | .ok x, .ok y =>
      if h : x = y then .isTrue (by rw [h])
      else .isFalse (by intro hc; injection hc; contradiction)
  | .ok _, .error _ => .isFalse (by intro hc; cases hc)
  | .error _, .ok _ => .isFalse (by intro hc; cases hc)
  | .error x, .error y =>
      if h : x = y then .isTrue (by rw [h])
      else .isFalse (by intro hc; injection hc; contradiction)

/-- After `releaseLock` on a reachable store the lock key is absent. -/
theorem lookup_releaseLock (r : RedisStore) (key : String) (hup : r.up) :
    (releaseLock r key).lookup ("lock:" ++ key) = none := by
  have h1 : (releaseLock r key).keys
      = r.keys.filter (fun p => ¬ p.1 = "lock:" ++ key) := by
    simp [releaseLock, hup]
  have h2 : ((releaseLock r key).keys.find?
      (fun p => p.1 = "lock:" ++ key)) = none := by
    rw [h1, List.find?_eq_none]
    intro p hp
    have := (List.mem_filter.mp hp).2
    simp only [decide_not, Bool.not_eq_eq_eq_not, Bool.not_true,
      decide_eq_false_iff_not] at this
    simpa using this
  simp [RedisStore.lookup, h2]

/-- A successful lock acquisition implies the store was reachable, and the
store stays reachable. -/
theorem acquireLock_up (r : RedisStore) (key : String) (now ttl : Int)
    (h : (acquireLock r key now ttl).1 = true) :
    r.up ∧ (acquireLock r key now ttl).2.up := by
  by_cases hup : r.up
  · refine ⟨hup, ?_⟩
    by_cases habs : (r.lookup ("lock:" ++ key)).isSome <;>
      simp [acquireLock, hup, habs]
  · simp [acquireLock, hup] at h

end Logistima

/-- Sample driver with capacity 1, load 0, status available. -/
def Logistima.soloDriver : Driver :=
  ⟨"d1", 1, 0, .available, none, "", none, 0⟩

/-- Sample world holding only `soloDriver`, reachable empty store. -/
def Logistima.soloWorld : World :=
  ⟨[soloDriver], [], ⟨[], true⟩, 0⟩

/-- C2: evaluation of the code at the scenario input. For a driver with
maxCapacity 1, currentLoad 0, status available: `reserveDriver` returns true
leaving load 1 and status busy (as the claim states), and the subsequent
`releaseDriver` returns true leaving load 0 — but status stays `busy`, not
`available`: `releaseDriver` computes `status: newLoad > 0 ? 'available' :
driver.status`, so at `newLoad = 0` it keeps the busy status instead of
restoring availability. -/
theorem c2_reserve_release_scenario_evaluation :
    (reserveDriver soloWorld "d1" Faults.ok).1 = .ok true
      ∧ findDriver (reserveDriver soloWorld "d1" Faults.ok).2.drivers "d1"
          = some ⟨"d1", 1, 1, .busy, none, "", none, 0⟩
      ∧ (releaseDriver (reserveDriver soloWorld "d1" Faults.ok).2 "d1"
          Faults.ok).1 = .ok true
      ∧ findDriver (releaseDriver (reserveDriver soloWorld "d1" Faults.ok).2
          "d1" Faults.ok).2.drivers "d1"
          = some ⟨"d1", 1, 0, .busy, none, "", none, 0⟩ := by
  decide

namespace Logistima

/-- Case analysis on `reserveDriver`: either the durable driver rows are
untouched (contention, guard rejection, or rollback on exception), or both
guards passed, the call committed, and the committed row carries the
incremented load. -/
theorem reserveDriver_drivers_cases (w : World) (driverId : String)
    (f : Faults) :
    (reserveDriver w driverId f).2.drivers = w.drivers
      ∨ ∃ d, findDriver w.drivers driverId = some d
          ∧ d.currentLoad < d.maxCapacity
          ∧ d.status = DriverStatus.available
          ∧ (reserveDriver w driverId f).1 = .ok true
          ∧ (reserveDriver w driverId f).2.drivers
              = updateDriverRow w.drivers
                  { d with
                    currentLoad := d.currentLoad + 1
                    status := if d.currentLoad + 1 ≥ d.maxCapacity then
                        DriverStatus.busy
                      else DriverStatus.available } := by
  by_cases hacq :
      (acquireLock w.redis (reserveLockKey driverId) w.now 5000).1 = true
  · cases hfind : findDriver w.drivers driverId with
    | none => left; simp [reserveDriver, hacq, hfind]
    | some d =>
      by_cases hcap : d.currentLoad ≥ d.maxCapacity
      · left; simp [reserveDriver, hacq, hfind, hcap]
      · by_cases hstat : d.status = DriverStatus.available
        · by_cases hupd : f.updateFails
          · left; simp [reserveDriver, hacq, hfind, hcap, hstat, hupd]
          · by_cases hcommit : f.commitFails
            · left
              simp [reserveDriver, hacq, hfind, hcap, hstat, hupd, hcommit]
            · right
              refine ⟨d, rfl, lt_of_not_ge hcap, hstat, ?_, ?_⟩ <;>
                simp [reserveDriver, hacq, hfind, hcap, hstat, hupd, hcommit]
        · left; simp [reserveDriver, hacq, hfind, hcap, hstat]
  · left; simp [reserveDriver, hacq]

/-- Case analysis on `releaseDriver`: either the durable driver rows are
untouched, or the load guard passed, the call committed, and the committed
row carries the decremented load (keeping the old status at load zero). -/
theorem releaseDriver_drivers_cases (w : World) (driverId : String)
    (f : Faults) :
    (releaseDriver w driverId f).2.drivers = w.drivers
      ∨ ∃ d, findDriver w.drivers driverId = some d
          ∧ 0 < d.currentLoad
          ∧ (releaseDriver w driverId f).1 = .ok true
          ∧ (releaseDriver w driverId f).2.drivers
              = updateDriverRow w.drivers
                  { d with
                    currentLoad := d.currentLoad - 1
                    status := if d.currentLoad - 1 > 0 then
                        DriverStatus.available
                      else d.status } := by
  by_cases hacq :
      (acquireLock w.redis (releaseLockKey driverId) w.now 5000).1 = true
  · cases hfind : findDriver w.drivers driverId with
    | none => left; simp [releaseDriver, hacq, hfind]
    | some d =>
      by_cases hload : d.currentLoad ≤ 0
      · left; simp [releaseDriver, hacq, hfind, hload]
      · by_cases hupd : f.updateFails
        · left; simp [releaseDriver, hacq, hfind, hload, hupd]
        · by_cases hcommit : f.commitFails
          · left; simp [releaseDriver, hacq, hfind, hload, hupd, hcommit]
          · right
            refine ⟨d, rfl, lt_of_not_le hload, ?_, ?_⟩ <;>
              simp [releaseDriver, hacq, hfind, hload, hupd, hcommit]
  · left; simp [releaseDriver, hacq]

end Logistima

/-- C3: for a driver row satisfying `0 ≤ currentLoad ≤ maxCapacity`, every
execution of `reserveDriver` and of `releaseDriver` — whether it returns
true, returns false, or throws (fault flags arbitrary) — leaves the row
satisfying `0 ≤ currentLoad ≤ maxCapacity`; the load changes only by a
reserve increment taken when `currentLoad < maxCapacity` or a release
decrement taken when `currentLoad > 0`. -/
theorem c3_load_invariant_preserved (w : World) (driverId : String)
    (f : Faults) (d : Driver)
    (hfind : findDriver w.drivers driverId = some d)
    (h0 : 0 ≤ d.currentLoad) (h1 : d.currentLoad ≤ d.maxCapacity) :
    (∀ d',
        findDriver (reserveDriver w driverId f).2.drivers driverId = some d' →
        0 ≤ d'.currentLoad ∧ d'.currentLoad ≤ d'.maxCapacity
          ∧ (d'.currentLoad ≠ d.currentLoad →
              d.currentLoad < d.maxCapacity
                ∧ d'.currentLoad = d.currentLoad + 1))
      ∧ (∀ d',
        findDriver (releaseDriver w driverId f).2.drivers driverId = some d' →
        0 ≤ d'.currentLoad ∧ d'.currentLoad ≤ d'.maxCapacity
          ∧ (d'.currentLoad ≠ d.currentLoad →
              0 < d.currentLoad ∧ d'.currentLoad = d.currentLoad - 1)) := by
  constructor
  · intro d' hd'
    rcases reserveDriver_drivers_cases w driverId f with hsame |
      ⟨d0, hf0, hcap0, _, _, hupd⟩
    · rw [hsame, hfind] at hd'
      injection hd' with h
      subst h
      exact ⟨h0, h1, fun hne => absurd rfl hne⟩
    · have hd0 : d0 = d := by
        rw [hfind] at hf0
        injection hf0 with h
        exact h.symm
      subst hd0
      have hnew : findDriver (reserveDriver w driverId f).2.drivers driverId
          = some { d0 with
              currentLoad := d0.currentLoad + 1
              status := if d0.currentLoad + 1 ≥ d0.maxCapacity then
                  DriverStatus.busy
                else DriverStatus.available } := by
        rw [hupd]
        exact findDriver_updateDriverRow _ _ _ _ hfind rfl
      rw [hnew] at hd'
      injection hd' with h
      subst h
      refine ⟨by simpa using le_trans h0 (le_of_lt (lt_add_one _)), ?_, ?_⟩
      · simpa using hcap0
      · intro _
        exact ⟨hcap0, rfl⟩
  · intro d' hd'
    rcases releaseDriver_drivers_cases w driverId f with hsame |
      ⟨d0, hf0, hload0, _, hupd⟩
    · rw [hsame, hfind] at hd'
      injection hd' with h
      subst h
      exact ⟨h0, h1, fun hne => absurd rfl hne⟩
    · have hd0 : d0 = d := by
        rw [hfind] at hf0
        injection hf0 with h
        exact h.symm
      subst hd0
      have hnew : findDriver (releaseDriver w driverId f).2.drivers driverId
          = some { d0 with
              currentLoad := d0.currentLoad - 1
              status := if d0.currentLoad - 1 > 0 then
                  DriverStatus.available
                else d0.status } := by
        rw [hupd]
        exact findDriver_updateDriverRow _ _ _ _ hfind rfl
      rw [hnew] at hd'
      injection hd' with h
      subst h
      refine ⟨by simpa using hload0, ?_, ?_⟩
      · simpa using le_trans (sub_le_self _ (by norm_num)) h1
      · intro _
        exact ⟨hload0, rfl⟩

/-- C3 witness: the invariant theorem applied to the concrete
capacity-1 driver. -/
theorem c3_load_invariant_preserved_witness :
    findDriver soloWorld.drivers "d1" = some soloDriver
      ∧ (0 : Int) ≤ soloDriver.currentLoad
      ∧ soloDriver.currentLoad ≤ soloDriver.maxCapacity
      ∧ ∀ d',
          findDriver (reserveDriver soloWorld "d1" Faults.ok).2.drivers "d1"
            = some d' →
          0 ≤ d'.currentLoad ∧ d'.currentLoad ≤ d'.maxCapacity := by
  have h := c3_load_invariant_preserved soloWorld "d1" Faults.ok soloDriver
    (by decide) (by decide) (by decide)
  exact ⟨by decide, by decide, by decide,
    fun d' hd' => ⟨(h.1 d' hd').1, (h.1 d' hd').2.1⟩⟩

/-- Sample world with a reachable empty store and no driver rows. -/
def Logistima.emptyWorld : World := ⟨[], [], ⟨[], true⟩, 0⟩

/-- C5: in both `reserveDriver` and `releaseDriver`, every exception raised
inside the locked section (not-found, a failing `driver.update`, or a failing
`transaction.commit`) propagates only after the durable transaction has been
rolled back (driver and delivery rows unchanged) and the distributed lock has
been released (its key is absent from the store). -/
theorem c5_exception_rolls_back_and_releases_lock (w : World)
    (driverId : String) (f : Faults) :
    (∀ e, (reserveDriver w driverId f).1 = .error e →
        (reserveDriver w driverId f).2.drivers = w.drivers
          ∧ (reserveDriver w driverId f).2.deliveries = w.deliveries
          ∧ (reserveDriver w driverId f).2.redis.lookup
              ("lock:" ++ reserveLockKey driverId) = none)
      ∧ (∀ e, (releaseDriver w driverId f).1 = .error e →
        (releaseDriver w driverId f).2.drivers = w.drivers
          ∧ (releaseDriver w driverId f).2.deliveries = w.deliveries
          ∧ (releaseDriver w driverId f).2.redis.lookup
              ("lock:" ++ releaseLockKey driverId) = none) := by
  constructor
  · intro e herr
    by_cases hacq :
        (acquireLock w.redis (reserveLockKey driverId) w.now 5000).1 = true
    · have hup :=
        (acquireLock_up w.redis (reserveLockKey driverId) w.now 5000 hacq).2
      have hrel := lookup_releaseLock
        (acquireLock w.redis (reserveLockKey driverId) w.now 5000).2
        (reserveLockKey driverId) hup
      cases hfind : findDriver w.drivers driverId with
      | none => exact ⟨by simp [reserveDriver, hacq, hfind],
          by simp [reserveDriver, hacq, hfind],
          by simpa [reserveDriver, hacq, hfind] using hrel⟩
      | some d =>
        by_cases hcap : d.currentLoad ≥ d.maxCapacity
        · simp [reserveDriver, hacq, hfind, hcap] at herr
        · by_cases hstat : d.status = DriverStatus.available
          · by_cases hupd : f.updateFails
            · exact ⟨by simp [reserveDriver, hacq, hfind, hcap, hstat, hupd],
                by simp [reserveDriver, hacq, hfind, hcap, hstat, hupd],
                by simpa [reserveDriver, hacq, hfind, hcap, hstat, hupd]
                  using hrel⟩
            · by_cases hcommit : f.commitFails
              · exact ⟨by simp [reserveDriver, hacq, hfind, hcap, hstat,
                    hupd, hcommit],
                  by simp [reserveDriver, hacq, hfind, hcap, hstat, hupd,
                    hcommit],
                  by simpa [reserveDriver, hacq, hfind, hcap, hstat, hupd,
                    hcommit] using hrel⟩
              · simp [reserveDriver, hacq, hfind, hcap, hstat, hupd,
                  hcommit] at herr
          · simp [reserveDriver, hacq, hfind, hcap, hstat] at herr
    · simp [reserveDriver, hacq] at herr
  · intro e herr
    by_cases hacq :
        (acquireLock w.redis (releaseLockKey driverId) w.now 5000).1 = true
    · have hup :=
        (acquireLock_up w.redis (releaseLockKey driverId) w.now 5000 hacq).2
      have hrel := lookup_releaseLock
        (acquireLock w.redis (releaseLockKey driverId) w.now 5000).2
        (releaseLockKey driverId) hup
      cases hfind : findDriver w.drivers driverId with
      | none => exact ⟨by simp [releaseDriver, hacq, hfind],
          by simp [releaseDriver, hacq, hfind],
          by simpa [releaseDriver, hacq, hfind] using hrel⟩
      | some d =>
        by_cases hload : d.currentLoad ≤ 0
        · simp [releaseDriver, hacq, hfind, hload] at herr
        · by_cases hupd : f.updateFails
          · exact ⟨by simp [releaseDriver, hacq, hfind, hload, hupd],
              by simp [releaseDriver, hacq, hfind, hload, hupd],
              by simpa [releaseDriver, hacq, hfind, hload, hupd] using hrel⟩
          · by_cases hcommit : f.commitFails
            · exact ⟨by simp [releaseDriver, hacq, hfind, hload, hupd,
                  hcommit],
                by simp [releaseDriver, hacq, hfind, hload, hupd, hcommit],
                by simpa [releaseDriver, hacq, hfind, hload, hupd, hcommit]
                  using hrel⟩
            · simp [releaseDriver, hacq, hfind, hload, hupd, hcommit] at herr
    · simp [releaseDriver, hacq] at herr

/-- C5 witness: the guarantee applied to a reserve of an unknown driver id,
whose locked section throws the 404 error. -/
theorem c5_exception_rolls_back_and_releases_lock_witness :
    (reserveDriver emptyWorld "dx" Faults.ok).1
        = .error "Driver dx not found"
      ∧ (reserveDriver emptyWorld "dx" Faults.ok).2.drivers
          = emptyWorld.drivers
      ∧ (reserveDriver emptyWorld "dx" Faults.ok).2.redis.lookup
          ("lock:" ++ reserveLockKey "dx") = none := by
  have h := (c5_exception_rolls_back_and_releases_lock emptyWorld "dx"
    Faults.ok).1 "Driver dx not found" (by decide)
  exact ⟨by decide, h.1, h.2.2⟩

namespace Logistima

/-! ## Nearby-Driver Finder (`findAvailableDriversNearby`) and scoring

The great-circle distance function `calculateDistance` computes over opaque
float trigonometry; it is abstracted as a parameter `dist` of the finder,
while everything around it (filtering, ordering, limiting, ETA, scoring) is
embedded from the source over `Rat`. The 30-second result cache consulted at
the top of the source function returns a previously computed result and is
not modelled. -/

/-- The `deliveryData` fields read by `calculateDriverScore`. -/
structure DeliveryData where
  priority : Int
deriving DecidableEq, Repr

/-- The `NearbyDriver` interface: driver, distance in meters, ETA minutes. -/
structure NearbyDriver where
  driver : Driver
  distance : Rat
  estimatedArrival : Int
deriving DecidableEq, Repr

/-- `calculateEstimatedArrival(distance, currentLoad)`:
`Math.ceil((distance / 500) * 1.2 + currentLoad * 2)`. -/
def calculateEstimatedArrival (distance : Rat) (currentLoad : Int) : Int :=
  ⌈(distance / 500) * (12 / 10 : Rat) + (currentLoad : Rat) * 2⌉

/-- The durable query filter of the finder:
`status: 'available', currentLoad: { [Op.lt]: col('maxCapacity') }`. -/
def isCandidateDriver (d : Driver) : Prop :=
  d.status = DriverStatus.available ∧ d.currentLoad < d.maxCapacity

instance : DecidablePred isCandidateDriver := fun _ => instDecidableAnd

/-- The durable query ordering of the finder:
`ORDER BY currentLoad ASC, updatedAt DESC`. -/
def dbOrder (a b : Driver) : Prop :=
  a.currentLoad < b.currentLoad
    ∨ (a.currentLoad = b.currentLoad ∧ b.updatedAt ≤ a.updatedAt)

instance : DecidableRel dbOrder := fun _ _ => instDecidableOr

instance : IsTotal Driver dbOrder := ⟨by
  intro a b
  rcases lt_trichotomy a.currentLoad b.currentLoad with h | h | h
  · exact Or.inl (Or.inl h)
  · rcases le_total b.updatedAt a.updatedAt with h' | h'
    · exact Or.inl (Or.inr ⟨h, h'⟩)
    · exact Or.inr (Or.inr ⟨h.symm, h'⟩)
  · exact Or.inr (Or.inl h)⟩

instance : IsTrans Driver dbOrder := ⟨by
  intro a b c hab hbc
  rcases hab with h1 | ⟨h1, h1'⟩ <;> rcases hbc with h2 | ⟨h2, h2'⟩
  · exact Or.inl (lt_trans h1 h2)
  · exact Or.inl (h2 ▸ h1)
  · exact Or.inl (h1 ▸ h2)
  · exact Or.inr ⟨h1.trans h2, le_trans h2' h1'⟩⟩

/-- Ascending-distance ordering used by the finder's final
`sort((a, b) => a.distance - b.distance)`. -/
def distOrder (a b : NearbyDriver) : Prop := a.distance ≤ b.distance

instance : DecidableRel distOrder := fun a b =>
  inferInstanceAs (Decidable (a.distance ≤ b.distance))

instance : IsTotal NearbyDriver distOrder :=
  ⟨fun a b => le_total a.distance b.distance⟩

instance : IsTrans NearbyDriver distOrder :=
  ⟨fun _ _ _ h1 h2 => le_trans h1 h2⟩

/-- The coordinates the finder feeds into the distance computation:
`driver.location?.lat || location.lat` (JS `||` falls back to the query
coordinate both when the location is absent and when the stored coordinate
is `0`). -/
def driverLatLng (loc : GeoLoc) (d : Driver) : GeoLoc :=
  match d.location with
  | none => loc
  | some l =>
      ⟨if l.lat = 0 then loc.lat else l.lat,
        if l.lng = 0 then loc.lng else l.lng⟩

/-- One mapped entry of the finder: distance from the query point plus ETA. -/
def toNearbyDriver (dist : GeoLoc → GeoLoc → Rat) (loc : GeoLoc)
    (d : Driver) : NearbyDriver :=
  let distance := dist loc (driverLatLng loc d)
  ⟨d, distance, calculateEstimatedArrival distance d.currentLoad⟩

/-- `DriverService.findAvailableDriversNearby(location, radius, limit)`:
query the durable rows with the availability filter, ordered by
`currentLoad ASC, updatedAt DESC`, truncated to `limit` by the database;
map each row to its distance/ETA; drop entries beyond `radius`; sort the
remainder ascending by distance. -/
def findAvailableDriversNearby (dist : GeoLoc → GeoLoc → Rat)
    (drivers : List Driver) (loc : GeoLoc) (radius : Rat) (limit : Nat) :
    List NearbyDriver :=
  let rows :=
    (List.insertionSort dbOrder
      (drivers.filter (fun d => decide (isCandidateDriver d)))).take limit
  let nearbyDrivers :=
    (rows.map (toNearbyDriver dist loc)).filter
      (fun n => decide (n.distance ≤ radius))
  List.insertionSort distOrder nearbyDrivers

/-- The pipeline in the words of the specification claim, for comparison
with the source's `findAvailableDriversNearby`: filter the durable rows to
available drivers, discard candidates beyond the radius, sort ascending by
distance, and only then truncate to `limit`. -/
def findAvailableSpecPipeline (dist : GeoLoc → GeoLoc → Rat)
    (drivers : List Driver) (loc : GeoLoc) (radius : Rat) (limit : Nat) :
    List NearbyDriver :=
  (List.insertionSort distOrder
    (((drivers.filter (fun d => decide (isCandidateDriver d))).map
        (toNearbyDriver dist loc)).filter
      (fun n => decide (n.distance ≤ radius)))).take limit

/-! ## Dispatch Orchestrator (`assignOptimalDriver`) -/

/-- A scored candidate (`{ ...driverInfo, score }`). -/
structure ScoredDriver where
  driver : Driver
  distance : Rat
  estimatedArrival : Int
  score : Rat
deriving DecidableEq, Repr

/-- `calculateDriverScore(driverInfo, deliveryData)`: base 100, scaled by
distance, load ratio and rating factors, boosted 1.2x for a priority-1
delivery with a senior driver, rounded to two decimals
(`Math.round(x) = ⌊x + 1/2⌋`). The load ratio divides by `maxCapacity`
over `Rat`. JS `driver.rating || 4.0` falls back both on a missing and on a
zero rating. -/
def calculateDriverScore (info : NearbyDriver) (deliveryData : DeliveryData) :
    Rat :=
  let score0 : Rat := 100
  let maxDistance : Rat := 10000
  let distanceScore := 100 - (info.distance / maxDistance) * 50
  let score1 := score0 * (distanceScore / 100)
  let loadRatio : Rat :=
    (info.driver.currentLoad : Rat) / (info.driver.maxCapacity : Rat)
  let loadScore := 100 - loadRatio * 40
  let score2 := score1 * (loadScore / 100)
  let rating : Rat :=
    match info.driver.rating with
    | some r => if r = 0 then 4 else r
    | none => 4
  let ratingScore := 80 + rating * 5
  let score3 := score2 * (ratingScore / 100)
  let score4 :=
    if deliveryData.priority = 1 ∧ info.driver.experienceLevel = "senior" then
      score3 * (12 / 10)
    else score3
  ((⌊score4 * 100 + 1 / 2⌋ : Int) : Rat) / 100

/-- The scored candidate list (`nearbyDrivers.map(info => {...info, score})`). -/
def scoreDrivers (nearby : List NearbyDriver) (deliveryData : DeliveryData) :
    List ScoredDriver :=
  nearby.map (fun info =>
    ⟨info.driver, info.distance, info.estimatedArrival,
      calculateDriverScore info deliveryData⟩)

/-- Descending-score ordering used by `sort((a, b) => b.score - a.score)`. -/
def scoreGE (a b : ScoredDriver) : Prop := b.score ≤ a.score

instance : DecidableRel scoreGE := fun a b =>
  inferInstanceAs (Decidable (b.score ≤ a.score))

instance : IsTotal ScoredDriver scoreGE := ⟨fun a b => le_total b.score a.score⟩

instance : IsTrans ScoredDriver scoreGE :=
  ⟨fun _ _ _ h1 h2 => le_trans h2 h1⟩

/-- The reservation loop of `assignOptimalDriver`: walk the ranked list;
`reserveDriver` success returns that candidate's id at once; a false return
or a caught exception moves on to the next candidate; an exhausted list
yields null. Per-driver fault flags `fs` model the infrastructure behavior
of each reserve call. -/
def tryReserveCandidates (fs : String → Faults) (w : World) :
    List ScoredDriver → Except String (Option String) × World
  | [] => (.ok none, w)
  | c :: rest =>
    match reserveDriver w c.driver.id (fs c.driver.id) with
    | (.ok true, w') => (.ok (some c.driver.id), w')
    | (.ok false, w') => tryReserveCandidates fs w' rest
    | (.error _, w') => tryReserveCandidates fs w' rest

/-- `DriverService.assignOptimalDriver(pickupLocation, deliveryData)`:
find the top 5 nearby available drivers within `NEARBY_RADIUS = 5000`;
return null when none; score and sort them descending; walk the ranked list
reserving until one succeeds. -/
def assignOptimalDriver (dist : GeoLoc → GeoLoc → Rat) (fs : String → Faults)
    (w : World) (pickupLocation : GeoLoc) (deliveryData : DeliveryData) :
    Except String (Option String) × World :=
  let nearbyDrivers :=
    findAvailableDriversNearby dist w.drivers pickupLocation 5000 5
  if nearbyDrivers.length = 0 then
    (.ok none, w)
  else
    let scoredDrivers :=
      List.insertionSort scoreGE (scoreDrivers nearbyDrivers deliveryData)
    tryReserveCandidates fs w scoredDrivers

end Logistima

namespace Logistima

/-- The reservation loop always produces a value, never an exception. -/
theorem tryReserveCandidates_ok (fs : String → Faults)
    (candidates : List ScoredDriver) : ∀ w : World,
    ∃ o, (tryReserveCandidates fs w candidates).1 = .ok o := by
  induction candidates with
  | nil => intro w; exact ⟨none, rfl⟩
  | cons c rest ih =>
    intro w
    rcases hres : reserveDriver w c.driver.id (fs c.driver.id) with ⟨r, w'⟩
    match r with
    | .ok true =>
        exact ⟨some c.driver.id, by simp [tryReserveCandidates, hres]⟩
    | .ok false =>
        obtain ⟨o, ho⟩ := ih w'
        exact ⟨o, by simp [tryReserveCandidates, hres, ho]⟩
    | .error e =>
        obtain ⟨o, ho⟩ := ih w'
        exact ⟨o, by simp [tryReserveCandidates, hres, ho]⟩

/-- A sample candidate whose driver id is not in `emptyWorld`. -/
def ghostCandidate : ScoredDriver :=
  ⟨⟨"dx", 1, 0, .available, none, "", none, 0⟩, 0, 0, 100⟩

/-- A sample candidate carrying `soloDriver`. -/
def soloCandidate : ScoredDriver := ⟨soloDriver, 0, 0, 100⟩

end Logistima

/-- C10: `assignOptimalDriver` never propagates an exception thrown by
`reserveDriver`: the reservation loop result is always a value (`some id` or
null), for every candidate list and every fault assignment — including the
404 NotFound thrown for an unknown driver id — and a reserve call that
throws makes the walk continue with the next candidate. -/
theorem c10_assign_never_propagates_reserve_exceptions
    (dist : GeoLoc → GeoLoc → Rat) (fs : String → Faults) (w : World)
    (pickupLocation : GeoLoc) (deliveryData : DeliveryData)
    (candidates : List ScoredDriver) :
    (∃ o, (tryReserveCandidates fs w candidates).1 = .ok o)
      ∧ (∃ o,
          (assignOptimalDriver dist fs w pickupLocation deliveryData).1
            = .ok o)
      ∧ (∀ (w' : World) (c : ScoredDriver) (rest : List ScoredDriver)
          (e : String),
          (reserveDriver w' c.driver.id (fs c.driver.id)).1 = .error e →
          tryReserveCandidates fs w' (c :: rest)
            = tryReserveCandidates fs
                (reserveDriver w' c.driver.id (fs c.driver.id)).2 rest) := by
  refine ⟨tryReserveCandidates_ok fs candidates w, ?_, ?_⟩
  · by_cases h0 :
        (findAvailableDriversNearby dist w.drivers pickupLocation 5000 5).length
          = 0
    · exact ⟨none, by simp [assignOptimalDriver, h0]⟩
    · obtain ⟨o, ho⟩ := tryReserveCandidates_ok fs
        (List.insertionSort scoreGE
          (scoreDrivers
            (findAvailableDriversNearby dist w.drivers pickupLocation 5000 5)
            deliveryData)) w
      exact ⟨o, by simp [assignOptimalDriver, h0, ho]⟩
  · intro w' c rest e herr
    rcases hres : reserveDriver w' c.driver.id (fs c.driver.id) with ⟨r, w''⟩
    rw [hres] at herr
    simp only at herr
    subst herr
    simp [tryReserveCandidates, hres]

/-- C10 witness: reserving the unknown driver `dx` throws the 404 error, the
walk continues past it, and the loop still returns a value. -/
theorem c10_assign_never_propagates_reserve_exceptions_witness :
    (reserveDriver emptyWorld ghostCandidate.driver.id
        ((fun _ => Faults.ok) ghostCandidate.driver.id)).1
        = .error "Driver dx not found"
      ∧ tryReserveCandidates (fun _ => Faults.ok) emptyWorld [ghostCandidate]
          = tryReserveCandidates (fun _ => Faults.ok)
              (reserveDriver emptyWorld ghostCandidate.driver.id
                ((fun _ => Faults.ok) ghostCandidate.driver.id)).2 []
      ∧ (tryReserveCandidates (fun _ => Faults.ok) emptyWorld
          [ghostCandidate]).1 = .ok none := by
  have h := c10_assign_never_propagates_reserve_exceptions
    (fun _ _ => 0) (fun _ => Faults.ok) emptyWorld ⟨0, 0⟩ ⟨0⟩ [ghostCandidate]
  refine ⟨by decide, ?_, by decide⟩
  exact h.2.2 emptyWorld ghostCandidate [] "Driver dx not found" (by decide)

/-- C4: `assignOptimalDriver` equals the reservation walk over the
descending-score ranking of the scored finder output; that ranking is
sorted descending by score; and the walk tries candidates sequentially:
an empty list yields null, a successful reserve returns that candidate's id
immediately (no further attempts, the world is exactly the one produced by
that single reserve call), and an unsuccessful reserve (false or caught
exception) moves to the next candidate. -/
theorem c4_assign_walks_ranked_list_first_success_wins
    (dist : GeoLoc → GeoLoc → Rat) (fs : String → Faults) (w : World)
    (pickupLocation : GeoLoc) (deliveryData : DeliveryData) :
    (assignOptimalDriver dist fs w pickupLocation deliveryData
        = tryReserveCandidates fs w
            (List.insertionSort scoreGE
              (scoreDrivers
                (findAvailableDriversNearby dist w.drivers pickupLocation
                  5000 5) deliveryData)))
      ∧ List.Sorted scoreGE
          (List.insertionSort scoreGE
            (scoreDrivers
              (findAvailableDriversNearby dist w.drivers pickupLocation
                5000 5) deliveryData))
      ∧ (∀ w' : World, tryReserveCandidates fs w' [] = (.ok none, w'))
      ∧ (∀ (w' : World) (c : ScoredDriver) (rest : List ScoredDriver),
          (reserveDriver w' c.driver.id (fs c.driver.id)).1 = .ok true →
          tryReserveCandidates fs w' (c :: rest)
            = (.ok (some c.driver.id),
                (reserveDriver w' c.driver.id (fs c.driver.id)).2))
      ∧ (∀ (w' : World) (c : ScoredDriver) (rest : List ScoredDriver),
          (reserveDriver w' c.driver.id (fs c.driver.id)).1 ≠ .ok true →
          tryReserveCandidates fs w' (c :: rest)
            = tryReserveCandidates fs
                (reserveDriver w' c.driver.id (fs c.driver.id)).2 rest) := by
  refine ⟨?_, List.sorted_insertionSort scoreGE _, fun w' => rfl, ?_, ?_⟩
  · by_cases h0 :
        (findAvailableDriversNearby dist w.drivers pickupLocation 5000 5).length
          = 0
    · have hnil :
          findAvailableDriversNearby dist w.drivers pickupLocation 5000 5
            = [] := List.length_eq_zero.mp h0
      simp [assignOptimalDriver, h0, hnil, scoreDrivers, List.insertionSort,
        tryReserveCandidates]
    · simp [assignOptimalDriver, h0]
  · intro w' c rest hok
    rcases hres : reserveDriver w' c.driver.id (fs c.driver.id) with ⟨r, w''⟩
    rw [hres] at hok
    simp only at hok
    subst hok
    simp [tryReserveCandidates, hres]
  · intro w' c rest hne
    rcases hres : reserveDriver w' c.driver.id (fs c.driver.id) with ⟨r, w''⟩
    rw [hres] at hne
    simp only at hne
    match r, hne with
    | .ok false, _ => simp [tryReserveCandidates, hres]
    | .error e, _ => simp [tryReserveCandidates, hres]
    | .ok true, hne => exact absurd rfl hne

/-- C4 witness: a reserve success at the head candidate returns that id with
no further attempts, and a head candidate whose reserve does not succeed is
skipped in favor of the rest of the ranked list. -/
theorem c4_assign_walks_ranked_list_first_success_wins_witness :
    (reserveDriver soloWorld soloCandidate.driver.id
        ((fun _ => Faults.ok) soloCandidate.driver.id)).1 = .ok true
      ∧ tryReserveCandidates (fun _ => Faults.ok) soloWorld [soloCandidate]
          = (.ok (some soloCandidate.driver.id),
              (reserveDriver soloWorld soloCandidate.driver.id
                ((fun _ => Faults.ok) soloCandidate.driver.id)).2)
      ∧ (reserveDriver emptyWorld ghostCandidate.driver.id
          ((fun _ => Faults.ok) ghostCandidate.driver.id)).1 ≠ .ok true
      ∧ tryReserveCandidates (fun _ => Faults.ok) emptyWorld
            [ghostCandidate, ghostCandidate]
          = tryReserveCandidates (fun _ => Faults.ok)
              (reserveDriver emptyWorld ghostCandidate.driver.id
                ((fun _ => Faults.ok) ghostCandidate.driver.id)).2
              [ghostCandidate] := by
  have h := c4_assign_walks_ranked_list_first_success_wins
    (fun _ _ => 0) (fun _ => Faults.ok) soloWorld ⟨0, 0⟩ ⟨0⟩
  refine ⟨by decide, ?_, by decide, ?_⟩
  · exact h.2.2.2.1 soloWorld soloCandidate [] (by decide)
  · exact h.2.2.2.2 emptyWorld ghostCandidate [ghostCandidate] (by decide)


namespace Logistima

/-- A far-away available driver with load 0, at (10°, 10°): the haversine
distance from the origin is about 1,568.5 km. -/
def farDriver : Driver :=
  ⟨"a", 5, 0, .available, none, "", some ⟨10, 10⟩, 0⟩

/-- A nearby available driver with load 1, at (0.002°, 0°): the haversine
distance from the origin is `6371000 * (0.002 * π / 180)` ≈ 222.39 m. -/
def nearDriver : Driver :=
  ⟨"b", 5, 1, .available, none, "", some ⟨mkRat 2 1000, 0⟩, 0⟩

/-- A concrete distance table standing in for the float trigonometry of
`calculateDistance`, agreeing with the haversine values of the source's
formula at the two stored positions: from the origin, (10°, 10°) is about
1,568,500 m away and (0.002°, 0°) about 222.39 m (both to within a meter
of `R = 6371000` haversine). -/
def tableDistance (_a b : GeoLoc) : Rat :=
  if b.lat = 10 then 1568500
  else if b.lat = mkRat 2 1000 then mkRat 22239 100
  else 0

end Logistima

/-- C8: the claim that `findAvailable` returns the available drivers
filtered by radius, sorted by distance, and THEN truncated to `limit` is
FALSE: the source applies `limit` inside the durable query (ordered by
`currentLoad ASC, updatedAt DESC`) before the radius filter. With two
available drivers — `farDriver` (load 0, about 1,568.5 km away, far beyond
the 1000 m radius) and `nearDriver` (load 1, about 222.39 m away, within
it) — and `limit = 1`, the durable query keeps only `farDriver` (lower
load), the radius filter discards it and the code returns no drivers, while
the claimed pipeline returns `nearDriver`. -/
theorem c8_find_available_counterexample :
    ((findAvailableDriversNearby tableDistance [farDriver, nearDriver]
        ⟨0, 0⟩ 1000 1).map (fun n => n.driver.id) = [])
      ∧ ((findAvailableSpecPipeline tableDistance [farDriver, nearDriver]
          ⟨0, 0⟩ 1000 1).map (fun n => n.driver.id) = ["b"])
      ∧ findAvailableDriversNearby tableDistance [farDriver, nearDriver]
            ⟨0, 0⟩ 1000 1
          ≠ findAvailableSpecPipeline tableDistance [farDriver, nearDriver]
            ⟨0, 0⟩ 1000 1 := by
  have h1 : (findAvailableDriversNearby tableDistance [farDriver, nearDriver]
      ⟨0, 0⟩ 1000 1).map (fun n => n.driver.id) = [] := by decide
  have h2 : (findAvailableSpecPipeline tableDistance [farDriver, nearDriver]
      ⟨0, 0⟩ 1000 1).map (fun n => n.driver.id) = ["b"] := by decide
  refine ⟨h1, h2, fun h => ?_⟩
  exact absurd
    (h1.symm.trans ((congrArg (List.map (fun n => n.driver.id)) h).trans h2))
    (by decide)

/-- C8 (amended): `findAvailable` first truncates — it keeps the first
`limit` drivers with `status == AVAILABLE and currentLoad < maxCapacity`
ordered by `currentLoad` ascending then `updatedAt` descending, and only
then discards those beyond `radiusMeters` and sorts the remainder ascending
by distance; consequently every returned entry is available and within the
radius, the list is distance-sorted and has at most `limit` entries, but
in-radius drivers may be omitted in favor of farther, less-loaded ones. -/
theorem c8_find_available_truncate_before_filter
    (dist : GeoLoc → GeoLoc → Rat) (drivers : List Driver) (loc : GeoLoc)
    (radius : Rat) (limit : Nat) :
    (findAvailableDriversNearby dist drivers loc radius limit
        = List.insertionSort distOrder
            (List.filter (fun n => decide (n.distance ≤ radius))
              (List.map (toNearbyDriver dist loc)
                (List.take limit
                  (List.insertionSort dbOrder
                    (List.filter (fun d => decide (isCandidateDriver d))
                      drivers))))))
      ∧ (∀ n, n ∈ findAvailableDriversNearby dist drivers loc radius limit →
          isCandidateDriver n.driver ∧ n.distance ≤ radius)
      ∧ List.Sorted distOrder
          (findAvailableDriversNearby dist drivers loc radius limit)
      ∧ (findAvailableDriversNearby dist drivers loc radius limit).length
          ≤ limit := by
  have hdef : findAvailableDriversNearby dist drivers loc radius limit
      = List.insertionSort distOrder
          (List.filter (fun n => decide (n.distance ≤ radius))
            (List.map (toNearbyDriver dist loc)
              (List.take limit
                (List.insertionSort dbOrder
                  (List.filter (fun d => decide (isCandidateDriver d))
                    drivers))))) := rfl
  refine ⟨hdef, ?_, ?_, ?_⟩
  · intro n hn
    rw [hdef] at hn
    have hn1 :=
      (List.perm_insertionSort distOrder _).mem_iff.mp hn
    obtain ⟨hmap, hdec⟩ := List.mem_filter.mp hn1
    obtain ⟨d, hd, hdn⟩ := List.mem_map.mp hmap
    have hd1 := List.take_subset _ _ hd
    have hd2 := (List.perm_insertionSort dbOrder _).mem_iff.mp hd1
    have hcand : isCandidateDriver d :=
      of_decide_eq_true (List.mem_filter.mp hd2).2
    constructor
    · rw [← hdn]
      exact hcand
    · exact of_decide_eq_true hdec
  · rw [hdef]
    exact List.sorted_insertionSort distOrder _
  · rw [hdef]
    calc (List.insertionSort distOrder
          (List.filter (fun n => decide (n.distance ≤ radius))
            (List.map (toNearbyDriver dist loc)
              (List.take limit
                (List.insertionSort dbOrder
                  (List.filter (fun d => decide (isCandidateDriver d))
                    drivers)))))).length
        = (List.filter (fun n => decide (n.distance ≤ radius))
            (List.map (toNearbyDriver dist loc)
              (List.take limit
                (List.insertionSort dbOrder
                  (List.filter (fun d => decide (isCandidateDriver d))
                    drivers))))).length :=
          (List.perm_insertionSort distOrder _).length_eq
      _ ≤ (List.map (toNearbyDriver dist loc)
            (List.take limit
              (List.insertionSort dbOrder
                (List.filter (fun d => decide (isCandidateDriver d))
                  drivers)))).length := List.length_filter_le _ _
      _ = (List.take limit
            (List.insertionSort dbOrder
              (List.filter (fun d => decide (isCandidateDriver d))
                drivers))).length := List.length_map _ _
      _ ≤ limit := List.length_take_le _ _

/-- C8 witness: the amended characterization applied to the two-driver store
with `limit = 2`, where `nearDriver` is in the result. -/
theorem c8_find_available_truncate_before_filter_witness :
    toNearbyDriver tableDistance ⟨0, 0⟩ nearDriver
        ∈ findAvailableDriversNearby tableDistance [farDriver, nearDriver]
            ⟨0, 0⟩ 1000 2
      ∧ isCandidateDriver
          (toNearbyDriver tableDistance ⟨0, 0⟩ nearDriver).driver
      ∧ (toNearbyDriver tableDistance ⟨0, 0⟩ nearDriver).distance ≤ 1000 := by
  have hmem : toNearbyDriver tableDistance ⟨0, 0⟩ nearDriver
      ∈ findAvailableDriversNearby tableDistance [farDriver, nearDriver]
          ⟨0, 0⟩ 1000 2 := List.Mem.head _
  have h := (c8_find_available_truncate_before_filter tableDistance
    [farDriver, nearDriver] ⟨0, 0⟩ 1000 2).2.1
    (toNearbyDriver tableDistance ⟨0, 0⟩ nearDriver) hmem
  exact ⟨hmem, h.1, h.2⟩

namespace Logistima

/-! ## Delivery status controller (`DeliveryController`) -/

/-- The transition table of `validateStatusTransition`:
`STARTED -> [COMPLETED, CANCELLED]`, `COMPLETED -> []`, `CANCELLED -> []`. -/
def validTransitions (s : DeliveryStatus) : List DeliveryStatus :=
  match s with
  | .started => [.completed, .cancelled]
  | .completed => []
  | .cancelled => []

/-- `DeliveryController.validateStatusTransition(currentStatus, newStatus)`:
throw a 400 `AppError` naming both statuses unless the requested status is
in the table row of the current one. -/
def validateStatusTransition (currentStatus newStatus : DeliveryStatus) :
    Except String Unit :=
  if newStatus ∈ validTransitions currentStatus then .ok ()
  else
    .error ("Invalid status transition from " ++ currentStatus.str
      ++ " to " ++ newStatus.str)

/-- `Delivery.findByPk(id)`. -/
def findDelivery (l : List Delivery) (deliveryId : String) :
    Option Delivery :=
  l.find? (fun x => x.id = deliveryId)

/-- Committing an update of one delivery row. -/
def updateDeliveryRow (l : List Delivery) (x' : Delivery) : List Delivery :=
  l.map (fun x => if x.id = x'.id then x' else x)

/-- Faults injected into one `updateDeliveryStatus` run: the fault flags of
the inner `releaseDriver` call, and whether the delivery's own `update` or
its transaction commit throws. -/
structure CtrlFaults where
  releaseFaults : Faults
  deliveryUpdateFails : Bool
  deliveryCommitFails : Bool
deriving DecidableEq, Repr

/-- `DeliveryController.updateDeliveryStatus`: under the distributed lock
`lock:delivery:<id>` (throw 429 on contention), row-lock read the delivery
(404 if absent) inside a transaction, validate the transition (throw 400),
call `releaseDriver` — which commits its own transaction — when the new
status is COMPLETED or CANCELLED, then update the delivery row (COMPLETED
also sets `receiptGenerated`) and commit; any exception rolls the
delivery's transaction back, and the inner `finally` releases the lock.
The enqueued receipt job and cache refreshes hold no durable state and are
not tracked. -/
def updateDeliveryStatus (w : World) (deliveryId : String)
    (status : DeliveryStatus) (cf : CtrlFaults) :
    Except String Delivery × World :=
  let lockKey := "lock:delivery:" ++ deliveryId
  let acq := acquireLock w.redis lockKey w.now 5000
  if ¬ acq.1 then
    (.error "Delivery is being processed by another request",
      { w with redis := acq.2 })
  else
    let w1 : World := { w with redis := acq.2 }
    match findDelivery w1.deliveries deliveryId with
    | none =>
        (.error "Delivery not found",
          { w1 with redis := releaseLock w1.redis lockKey })
    | some delivery =>
      match validateStatusTransition delivery.status status with
      | .error e =>
          (.error e, { w1 with redis := releaseLock w1.redis lockKey })
      | .ok _ =>
        let rel :=
          if status = DeliveryStatus.completed
              ∨ status = DeliveryStatus.cancelled then
            releaseDriver w1 delivery.driverId cf.releaseFaults
          else (.ok false, w1)
        match rel.1 with
        | .error e =>
            (.error e,
              { rel.2 with redis := releaseLock rel.2.redis lockKey })
        | .ok _ =>
          if cf.deliveryUpdateFails then
            (.error "delivery update failed",
              { rel.2 with redis := releaseLock rel.2.redis lockKey })
          else
            let delivery' := { delivery with
              status := status
              receiptGenerated :=
                if status = DeliveryStatus.completed then true
                else delivery.receiptGenerated }
            if cf.deliveryCommitFails then
              (.error "delivery commit failed",
                { rel.2 with redis := releaseLock rel.2.redis lockKey })
            else
              (.ok delivery',
                { rel.2 with
                  deliveries := updateDeliveryRow rel.2.deliveries delivery'
                  redis := releaseLock rel.2.redis lockKey })

/-- A successful `releaseDriver` run: lock acquired, driver present with
positive load, no faults — returns true and commits the decrement. -/
theorem releaseDriver_success (w : World) (driverId : String) (d : Driver)
    (hacq : (acquireLock w.redis (releaseLockKey driverId) w.now 5000).1
      = true)
    (hfind : findDriver w.drivers driverId = some d)
    (hload : 0 < d.currentLoad) :
    (releaseDriver w driverId Faults.ok).1 = .ok true
      ∧ (releaseDriver w driverId Faults.ok).2.drivers
          = updateDriverRow w.drivers
              { d with
                currentLoad := d.currentLoad - 1
                status := if d.currentLoad - 1 > 0 then
                    DriverStatus.available
                  else d.status }
      ∧ (releaseDriver w driverId Faults.ok).2.deliveries = w.deliveries
      ∧ (releaseDriver w driverId Faults.ok).2.now = w.now := by
  refine ⟨?_, ?_, ?_, ?_⟩ <;>
    simp [releaseDriver, hacq, hfind, not_le.mpr hload, Faults.ok]

end Logistima

/-- C7: a delivery status update is permitted only from STARTED to COMPLETED
or CANCELLED (COMPLETED and CANCELLED are terminal), and a requested
transition outside this table makes `updateDeliveryStatus` reject with an
error naming the current and requested statuses before mutating any
delivery or driver row. -/
theorem c7_delivery_status_transition_table :
    (∀ cur new : DeliveryStatus,
        validateStatusTransition cur new = .ok ()
          ↔ (cur = DeliveryStatus.started
              ∧ (new = DeliveryStatus.completed
                ∨ new = DeliveryStatus.cancelled)))
      ∧ (∀ cur new : DeliveryStatus,
          validateStatusTransition cur new ≠ .ok () →
          validateStatusTransition cur new
            = .error ("Invalid status transition from " ++ cur.str
                ++ " to " ++ new.str))
      ∧ (∀ (w : World) (deliveryId : String) (newStatus : DeliveryStatus)
          (cf : CtrlFaults) (delivery : Delivery),
          (acquireLock w.redis ("lock:delivery:" ++ deliveryId) w.now
            5000).1 = true →
          findDelivery w.deliveries deliveryId = some delivery →
          ¬ (delivery.status = DeliveryStatus.started
              ∧ (newStatus = DeliveryStatus.completed
                ∨ newStatus = DeliveryStatus.cancelled)) →
          (updateDeliveryStatus w deliveryId newStatus cf).1
              = .error ("Invalid status transition from "
                  ++ delivery.status.str ++ " to " ++ newStatus.str)
            ∧ (updateDeliveryStatus w deliveryId newStatus cf).2.deliveries
                = w.deliveries
            ∧ (updateDeliveryStatus w deliveryId newStatus cf).2.drivers
                = w.drivers) := by
  have htable : ∀ cur new : DeliveryStatus,
      validateStatusTransition cur new = .ok ()
        ↔ (cur = DeliveryStatus.started
            ∧ (new = DeliveryStatus.completed
              ∨ new = DeliveryStatus.cancelled)) := by
    intro cur new
    cases cur <;> cases new <;> decide
  have herr : ∀ cur new : DeliveryStatus,
      validateStatusTransition cur new ≠ .ok () →
      validateStatusTransition cur new
        = .error ("Invalid status transition from " ++ cur.str
            ++ " to " ++ new.str) := by
    intro cur new
    cases cur <;> cases new <;> decide
  refine ⟨htable, herr, ?_⟩
  intro w deliveryId newStatus cf delivery hacq hfind hbad
  have hval : validateStatusTransition delivery.status newStatus
      = .error ("Invalid status transition from " ++ delivery.status.str
          ++ " to " ++ newStatus.str) :=
    herr _ _ (fun hok => hbad ((htable _ _).mp hok))
  refine ⟨?_, ?_, ?_⟩ <;> simp [updateDeliveryStatus, hacq, hfind, hval]

/-- A terminal delivery used to exercise the invalid-transition rejection. -/
def Logistima.doneDelivery : Delivery := ⟨"x", "p", "d1", .completed, true⟩

/-- World holding only `doneDelivery`, reachable empty store. -/
def Logistima.doneWorld : World := ⟨[], [doneDelivery], ⟨[], true⟩, 0⟩

/-- C7 witness: requesting COMPLETED → STARTED on `doneDelivery` is rejected
with the descriptive error and no rows change. -/
theorem c7_delivery_status_transition_table_witness :
    (updateDeliveryStatus doneWorld "x" DeliveryStatus.started
        ⟨Faults.ok, false, false⟩).1
        = .error "Invalid status transition from completed to started"
      ∧ (updateDeliveryStatus doneWorld "x" DeliveryStatus.started
          ⟨Faults.ok, false, false⟩).2.deliveries = doneWorld.deliveries
      ∧ (updateDeliveryStatus doneWorld "x" DeliveryStatus.started
          ⟨Faults.ok, false, false⟩).2.drivers = doneWorld.drivers := by
  have h := c7_delivery_status_transition_table.2.2 doneWorld "x"
    DeliveryStatus.started ⟨Faults.ok, false, false⟩ doneDelivery
    (by decide) (by decide) (by decide)
  exact ⟨h.1, h.2.1, h.2.2⟩

/-- C9: in `updateDeliveryStatus`, when the requested status is COMPLETED or
CANCELLED, the driver release runs — and commits in its own transaction —
before the delivery's own transaction commits: if the delivery's `update` or
its commit then throws, the call reports the error while the driver's load
has already been durably decremented and the delivery row is unchanged — the
driver release is not atomic with the delivery status transition. -/
theorem c9_driver_release_not_atomic_with_delivery_update
    (w : World) (deliveryId : String) (status : DeliveryStatus)
    (cf : CtrlFaults) (delivery : Delivery) (driver : Driver)
    (hfind : findDelivery w.deliveries deliveryId = some delivery)
    (hstarted : delivery.status = DeliveryStatus.started)
    (hstatus : status = DeliveryStatus.completed
      ∨ status = DeliveryStatus.cancelled)
    (hdriver : findDriver w.drivers delivery.driverId = some driver)
    (hload : 0 < driver.currentLoad)
    (hacq1 : (acquireLock w.redis ("lock:delivery:" ++ deliveryId) w.now
      5000).1 = true)
    (hacq2 : (acquireLock
        (acquireLock w.redis ("lock:delivery:" ++ deliveryId) w.now 5000).2
        (releaseLockKey delivery.driverId) w.now 5000).1 = true)
    (hrelf : cf.releaseFaults = Faults.ok)
    (hfault : cf.deliveryUpdateFails = true
      ∨ cf.deliveryCommitFails = true) :
    (∃ e, (updateDeliveryStatus w deliveryId status cf).1 = .error e)
      ∧ findDelivery
          (updateDeliveryStatus w deliveryId status cf).2.deliveries
          deliveryId = some delivery
      ∧ findDriver (updateDeliveryStatus w deliveryId status cf).2.drivers
          delivery.driverId
          = some { driver with
              currentLoad := driver.currentLoad - 1
              status := if driver.currentLoad - 1 > 0 then
                  DriverStatus.available
                else driver.status } := by
  have hval : validateStatusTransition delivery.status status = .ok () := by
    rw [hstarted]
    rcases hstatus with h | h <;> subst h <;> decide
  have hsucc := releaseDriver_success
    { w with redis := (acquireLock w.redis ("lock:delivery:" ++ deliveryId)
        w.now 5000).2 }
    delivery.driverId driver hacq2 hdriver hload
  have hdriver' := findDriver_updateDriverRow w.drivers delivery.driverId
    driver
    { driver with
      currentLoad := driver.currentLoad - 1
      status := if driver.currentLoad - 1 > 0 then
          DriverStatus.available
        else driver.status }
    hdriver rfl
  by_cases hdu : cf.deliveryUpdateFails = true
  · refine ⟨⟨"delivery update failed", ?_⟩, ?_, ?_⟩
    · simp [updateDeliveryStatus, hacq1, hfind, hval, if_pos hstatus, hrelf,
        hsucc.1, hsucc.2.1, hsucc.2.2.1, hdu]
    · simp [updateDeliveryStatus, hacq1, hfind, hval, if_pos hstatus, hrelf,
        hsucc.1, hsucc.2.1, hsucc.2.2.1, hdu]
    · simp [updateDeliveryStatus, hacq1, hfind, hval, if_pos hstatus, hrelf,
        hsucc.1, hsucc.2.1, hsucc.2.2.1, hdu]
      simpa using hdriver'
  · have hdc : cf.deliveryCommitFails = true :=
      hfault.resolve_left hdu
    refine ⟨⟨"delivery commit failed", ?_⟩, ?_, ?_⟩
    · simp [updateDeliveryStatus, hacq1, hfind, hval, if_pos hstatus, hrelf,
        hsucc.1, hsucc.2.1, hsucc.2.2.1, hdu, hdc]
    · simp [updateDeliveryStatus, hacq1, hfind, hval, if_pos hstatus, hrelf,
        hsucc.1, hsucc.2.1, hsucc.2.2.1, hdu, hdc]
    · simp [updateDeliveryStatus, hacq1, hfind, hval, if_pos hstatus, hrelf,
        hsucc.1, hsucc.2.1, hsucc.2.2.1, hdu, hdc]
      simpa using hdriver'

/-- A delivery in progress, assigned to driver `d1`. -/
def Logistima.activeDelivery : Delivery := ⟨"x", "p", "d1", .started, false⟩

/-- The busy capacity-1 driver carrying `activeDelivery`. -/
def Logistima.busyDriver : Driver := ⟨"d1", 1, 1, .busy, none, "", none, 0⟩

/-- World holding `busyDriver` and `activeDelivery`, reachable empty
store. -/
def Logistima.ctrlWorld : World :=
  ⟨[busyDriver], [activeDelivery], ⟨[], true⟩, 0⟩

/-- C9 witness: completing `activeDelivery` while the delivery commit throws
leaves the delivery STARTED but `busyDriver` already decremented to load
0. -/
theorem c9_driver_release_not_atomic_with_delivery_update_witness :
    (updateDeliveryStatus ctrlWorld "x" DeliveryStatus.completed
        ⟨Faults.ok, false, true⟩).1 = .error "delivery commit failed"
      ∧ findDelivery (updateDeliveryStatus ctrlWorld "x"
          DeliveryStatus.completed ⟨Faults.ok, false, true⟩).2.deliveries "x"
          = some activeDelivery
      ∧ findDriver (updateDeliveryStatus ctrlWorld "x"
          DeliveryStatus.completed ⟨Faults.ok, false, true⟩).2.drivers "d1"
          = some ⟨"d1", 1, 0, .busy, none, "", none, 0⟩ := by
  have h := c9_driver_release_not_atomic_with_delivery_update ctrlWorld "x"
    DeliveryStatus.completed ⟨Faults.ok, false, true⟩ activeDelivery
    busyDriver (by decide) (by decide) (Or.inl rfl) (by decide) (by decide)
    (by decide) (by decide) rfl (Or.inr rfl)
  refine ⟨by decide, h.2.1, ?_⟩
  simpa using h.2.2

/-- C1 witness: the distinct-keys fact instantiated at driver id `d9`. -/
theorem c1_reserve_release_lock_keys_distinct_witness :
    reserveLockKey "d9" = "driver:reserve:" ++ "d9"
      ∧ releaseLockKey "d9" = "driver:release:" ++ "d9"
      ∧ reserveLockKey "d9" ≠ releaseLockKey "d9" :=
  c1_reserve_release_lock_keys_distinct "d9"
